import Mathlib

/-!
Shallow embedding of the document retrieval-augmented-answering pipeline of
the call-center backend: `DocumentProcessor` (src/services/document_processor.py),
`VectorStore` (src/services/vector_store.py) and `RAGService`
(src/services/rag_service.py), together with the data model of
src/models/document_models.py.

External services (the tiktoken tokenizer, the OpenAI embedding and chat
endpoints, the Supabase tables and RPC) are modelled as explicit oracle
functions; fallible calls return `Except String`.  Network calls made by an
operation are recorded in a trace of `ExtCall` values so that statements such
as "the embedding is requested before any validation" can be expressed.
Floating-point values (embedding components, similarity scores, thresholds)
are modelled as rationals.
-/

/-- `DocumentChunk` of src/models/document_models.py: content, source,
optional page number and chunk number. -/
structure DocumentChunk where
  content : String
  source : String
  page_number : Option Int
  chunk_number : Int
deriving DecidableEq

/-- `DocumentMetadata` of src/models/document_models.py.  The
`last_updated` datetime is modelled as an optional UTC ISO timestamp
string, since the claims do not touch the timezone conversion. -/
structure DocumentMetadata where
  title : String
  file_type : String
  total_pages : Option Int
  file_size : Int
  source_url : Option String
  category : String
  summary : Option String
  tags : Option (List String)
  helpful_rating : Option Int
  use_count : Option Int
  ai_suggestion : Option String
  last_updated : Option String
deriving DecidableEq

/-- `DocumentMetadata.get_utc_timestamp`: returns the normalized UTC
timestamp when `last_updated` is set, `None` otherwise.  The pytz
normalization itself is external; in the model `last_updated` already
holds the normalized string. -/
def DocumentMetadata.get_utc_timestamp (m : DocumentMetadata) : Option String :=
  m.last_updated

/-- Abstract tokenizer standing for `tiktoken.get_encoding("cl100k_base")`:
an encode and a decode function. -/
structure Tokenizer where
  encode : String → List Nat
  decode : List Nat → String

/-- The mutable-free state of `DocumentProcessor`: its tokenizer and the two
chunking constants. -/
structure DocumentProcessor where
  tokenizer : Tokenizer
  chunk_size : Nat
  chunk_overlap : Nat

/-- `DocumentProcessor.__init__`: chunk_size = 1000, chunk_overlap = 200;
the tokenizer is an external dependency and is passed in. -/
def DocumentProcessor.init (tok : Tokenizer) : DocumentProcessor :=
  { tokenizer := tok, chunk_size := 1000, chunk_overlap := 200 }

/-- Python `range(0, stop, step)` for a positive step: the multiples of
`step` below `stop`. -/
def pyRange (stop step : Nat) : List Nat :=
  (List.range ((stop + step - 1) / step)).map (fun k => k * step)

/-- `DocumentProcessor.create_chunks` (document_processor.py lines 110-125):
encode the text, walk the token list with stride
`chunk_size - chunk_overlap`, take a window of `chunk_size` tokens at each
position, decode it, and append a chunk numbered `len(chunks) + 1`. -/
def DocumentProcessor.create_chunks (dp : DocumentProcessor)
    (text source : String) (page_number : Option Int) : List DocumentChunk :=
  let tokens := dp.tokenizer.encode text
  (pyRange tokens.length (dp.chunk_size - dp.chunk_overlap)).foldl
    (fun chunks i =>
      chunks ++ [{ content := dp.tokenizer.decode ((tokens.drop i).take dp.chunk_size),
                   source := source,
                   page_number := page_number,
                   chunk_number := (chunks.length : Int) + 1 }]) []

/-- Python `str.split()` with no argument: split on whitespace runs,
dropping empty pieces. -/
def pySplit (s : String) : List String :=
  (s.split (fun c => c.isWhitespace)).filter (fun w => w ≠ "")

/-- Python slice `l[-n:]`: the last `n` elements (the whole list when it is
shorter than `n`). -/
def pyTakeLast {α : Type} (n : Nat) (l : List α) : List α :=
  l.drop (l.length - n)

/-- `sum(len(word) + 1 for word in words)`. -/
def wordsSize (ws : List String) : Nat :=
  (ws.map (fun w => w.length + 1)).sum

/-- Loop state of `DocumentProcessor._create_chunks`: the accumulated chunks,
the current window of words, its running character size and the next chunk
number. -/
structure ChunkLoopState where
  chunks : List DocumentChunk
  current_chunk : List String
  current_size : Nat
  chunk_number : Int
deriving DecidableEq

/-- One iteration of the word loop of `_create_chunks`
(document_processor.py lines 70-88): append the word, add its length plus
one to the running size, and when the size reaches `chunk_size` emit the
joined window as a chunk and keep the last `chunk_overlap` words as
overlap. -/
def createChunksStep (chunk_size chunk_overlap : Nat) (source : String)
    (page_num : Option Int) (st : ChunkLoopState) (word : String) : ChunkLoopState :=
  let current_chunk := st.current_chunk ++ [word]
  let current_size := st.current_size + word.length + 1
  if chunk_size ≤ current_size then
    let chunk_text := String.intercalate " " current_chunk
    let chunks := st.chunks ++
      [{ content := chunk_text, source := source, page_number := page_num,
         chunk_number := st.chunk_number }]
    let overlap_words := pyTakeLast chunk_overlap current_chunk
    { chunks := chunks, current_chunk := overlap_words,
      current_size := wordsSize overlap_words, chunk_number := st.chunk_number + 1 }
  else
    { st with current_chunk := current_chunk, current_size := current_size }

/-- `DocumentProcessor._create_chunks` (document_processor.py lines 60-100):
run the word loop and emit a final chunk when words remain in the window. -/
def DocumentProcessor.create_chunks_impl (dp : DocumentProcessor)
    (text source : String) (page_num : Option Int) : List DocumentChunk :=
  let st := (pySplit text).foldl
    (createChunksStep dp.chunk_size dp.chunk_overlap source page_num)
    { chunks := [], current_chunk := [], current_size := 0, chunk_number := 0 }
  if st.current_chunk.isEmpty then st.chunks
  else st.chunks ++
    [{ content := String.intercalate " " st.current_chunk, source := source,
       page_number := page_num, chunk_number := st.chunk_number }]

/-- The three views an on-disk file offers to the three extraction
libraries: the page texts `fitz` would return for a PDF, the paragraph
texts `python-docx` would return, and the raw content `open().read()`
would return. -/
structure ModelFile where
  pdf_pages : List String
  docx_paragraphs : List String
  text_content : String

/-- `DocumentProcessor._process_pdf` (document_processor.py lines 31-42):
set `metadata.total_pages` to the page count, then chunk every page with
the 1-based page number `page_num + 1`. -/
def DocumentProcessor.process_pdf (dp : DocumentProcessor) (file : ModelFile)
    (metadata : DocumentMetadata) : List DocumentChunk × DocumentMetadata :=
  let md := { metadata with total_pages := some (file.pdf_pages.length : Int) }
  let chunks := (List.range file.pdf_pages.length).foldl
    (fun acc page_num =>
      acc ++ dp.create_chunks_impl (file.pdf_pages.getD page_num "")
        metadata.title (some ((page_num : Int) + 1))) []
  (chunks, md)

/-- `DocumentProcessor._process_docx` (document_processor.py lines 44-51):
set `metadata.total_pages` to the paragraph count (the code comment calls
it an approximation), join the paragraphs with newlines, and chunk with no
page number. -/
def DocumentProcessor.process_docx (dp : DocumentProcessor) (file : ModelFile)
    (metadata : DocumentMetadata) : List DocumentChunk × DocumentMetadata :=
  let md := { metadata with total_pages := some (file.docx_paragraphs.length : Int) }
  let text := String.intercalate "\n" file.docx_paragraphs
  (dp.create_chunks_impl text metadata.title none, md)

/-- `DocumentProcessor._process_text` (document_processor.py lines 53-58):
chunk the raw file content with no page number; the metadata is not
touched. -/
def DocumentProcessor.process_text (dp : DocumentProcessor) (file : ModelFile)
    (metadata : DocumentMetadata) : List DocumentChunk × DocumentMetadata :=
  (dp.create_chunks_impl file.text_content metadata.title none, metadata)

/-- `DocumentProcessor.process_document` (document_processor.py lines
18-29): dispatch on the lower-cased file extension; unsupported extensions
raise `ValueError`. -/
def DocumentProcessor.process_document (dp : DocumentProcessor) (ext : String)
    (file : ModelFile) (metadata : DocumentMetadata) :
    Except String (List DocumentChunk × DocumentMetadata) :=
  if ext = ".pdf" then .ok (dp.process_pdf file metadata)
  else if ext = ".docx" then .ok (dp.process_docx file metadata)
  else if ext = ".txt" ∨ ext = ".md" then .ok (dp.process_text file metadata)
  else .error ("Unsupported file type: " ++ ext)

theorem foldl_append_len {α β : Type} (l : List α) (g : List β → α → β) (init : List β) :
    (l.foldl (fun acc i => acc ++ [g acc i]) init).length = init.length + l.length := by
  induction l generalizing init with
  | nil => simp
  | cons x xs ih =>
    simp only [List.foldl_cons]
    rw [ih]
    simp
    omega

theorem pyRange_length (stop step : Nat) :
    (pyRange stop step).length = (stop + step - 1) / step := by
  simp [pyRange]

/-- The number of chunks `create_chunks` emits is the number of window start
positions, i.e. `ceil(N / (chunk_size - chunk_overlap))` for `N` tokens. -/
theorem create_chunks_length (dp : DocumentProcessor) (text source : String)
    (page : Option Int) :
    (dp.create_chunks text source page).length =
      ((dp.tokenizer.encode text).length + (dp.chunk_size - dp.chunk_overlap) - 1)
        / (dp.chunk_size - dp.chunk_overlap) := by
  unfold DocumentProcessor.create_chunks
  rw [foldl_append_len]
  simp [pyRange_length]

/-- The embedding model `DocumentProcessor.create_embeddings` requests at
ingestion (document_processor.py line 132). -/
def ingestionEmbeddingModel : String := "text-embedding-3-small"

/-- The embedding model `VectorStore.search_similar_chunks` requests for the
query (vector_store.py line 65). -/
def queryEmbeddingModel : String := "text-embedding-ada-002"

/-- A network call made to an external service, recorded in order. -/
inductive ExtCall where
  | embedQuery (model : String) (input : String)
  | rpcMatchChunks (match_threshold : Rat) (match_count : Int)
  | selectDocuments (ids : List Nat)
  | chatCompletion (model : String)
deriving DecidableEq

/-- `DocumentProcessor.create_embeddings` (document_processor.py lines
127-135): one embedding request per chunk, in order, with the ingestion
model; a provider failure propagates.  The result is paired with the trace
of embedding calls made. -/
def DocumentProcessor.create_embeddings
    (embed : String → String → Except String (List Rat))
    (chunks : List DocumentChunk) :
    Except String (List (List Rat)) × List ExtCall :=
  match chunks with
  | [] => (.ok [], [])
  | c :: rest =>
    match embed ingestionEmbeddingModel c.content with
    | .error e => (.error e, [.embedQuery ingestionEmbeddingModel c.content])
    | .ok v =>
      let r := DocumentProcessor.create_embeddings embed rest
      match r.1 with
      | .error e => (.error e, .embedQuery ingestionEmbeddingModel c.content :: r.2)
      | .ok vs => (.ok (v :: vs), .embedQuery ingestionEmbeddingModel c.content :: r.2)

/-- A row of the `match_chunks` RPC result, a Python dict.  `page_number`
is the nullable table column; `similarity` and `source` are optional keys:
`source` is absent until the join with the documents table adds it. -/
structure ChunkDict where
  document_id : Nat
  content : String
  page_number : Option Int
  similarity : Option Rat
  source : Option String
deriving DecidableEq

/-- A row of the `documents` table as used by the join (only `id` and
`title` are read). -/
structure DocRow where
  id : Nat
  title : String
deriving DecidableEq

/-- The external services `VectorStore.search_similar_chunks` talks to:
the OpenAI embeddings endpoint, the `match_chunks` RPC and the `documents`
table select.  Each can fail. -/
structure VectorStoreEnv where
  embed : String → String → Except String (List Rat)
  match_chunks : List Rat → Rat → Int → Except String (List ChunkDict)
  select_documents : List Nat → Except String (List DocRow)

/-- The join step of `search_similar_chunks` (vector_store.py lines 94-99):
when the chunk's document is in the map, set `source` to the document title
and default `similarity` to 0.0; otherwise leave the chunk unchanged. -/
def joinChunk (doc_map : Nat → Option DocRow) (c : ChunkDict) : ChunkDict :=
  match doc_map c.document_id with
  | some doc => { c with source := some doc.title,
                         similarity := some (c.similarity.getD 0) }
  | none => c

/-- `VectorStore.search_similar_chunks` (vector_store.py lines 55-109):
embed the query with `queryEmbeddingModel`, call the `match_chunks` RPC with
the threshold and count unchanged, join nonempty results with the documents
table, and return the chunks.  The whole body is wrapped in
`try ... except Exception: return []`, so every failure yields the empty
list.  Python defaults: match_threshold = 0.1, match_count = 3. -/
def VectorStore.search_similar_chunks (env : VectorStoreEnv) (query : String)
    (match_threshold : Rat) (match_count : Int) :
    List ChunkDict × List ExtCall :=
  match env.embed queryEmbeddingModel query with
  | .error _ => ([], [.embedQuery queryEmbeddingModel query])
  | .ok query_embedding =>
    match env.match_chunks query_embedding match_threshold match_count with
    | .error _ =>
      ([], [.embedQuery queryEmbeddingModel query,
            .rpcMatchChunks match_threshold match_count])
    | .ok chunks =>
      if chunks.isEmpty then
        ([], [.embedQuery queryEmbeddingModel query,
              .rpcMatchChunks match_threshold match_count])
      else
        let doc_ids := (chunks.map (fun c => c.document_id)).dedup
        match env.select_documents doc_ids with
        | .error _ =>
          ([], [.embedQuery queryEmbeddingModel query,
                .rpcMatchChunks match_threshold match_count,
                .selectDocuments doc_ids])
        | .ok docs =>
          let doc_map := fun i => docs.find? (fun d => d.id = i)
          (chunks.map (joinChunk doc_map),
           [.embedQuery queryEmbeddingModel query,
            .rpcMatchChunks match_threshold match_count,
            .selectDocuments doc_ids])

/-- A row inserted into the `documents` table by `store_document`
(vector_store.py lines 25-38). -/
structure DocInsertRow where
  title : String
  file_type : String
  total_pages : Option Int
  file_size : Int
  source_url : Option String
  category : String
  summary : Option String
  tags : Option (List String)
  helpful_rating : Option Int
  use_count : Option Int
  last_updated : Option String
  ai_suggestion : Option String
deriving DecidableEq

/-- A row inserted into the `document_chunks` table by `store_document`
(vector_store.py lines 44-51). -/
structure ChunkInsertRow where
  document_id : Nat
  content : String
  embedding : List Rat
  page_number : Option Int
  chunk_number : Int
deriving DecidableEq

/-- The backing Supabase tables, with the id the insert hands out and a
fault-injection flag that makes the chunk-batch insert fail. -/
structure SupabaseDB where
  documents : List (Nat × DocInsertRow)
  document_chunks : List ChunkInsertRow
  next_id : Nat
  chunk_insert_fails : Bool
deriving DecidableEq

/-- `VectorStore.store_document` (vector_store.py lines 15-53): insert the
document row, read back its generated id, build one chunk row per
`zip(chunks, embeddings)` pair, and insert the batch.  There is no
transaction: when the chunk insert fails the document row stays inserted
and the exception propagates. -/
def VectorStore.store_document (db : SupabaseDB) (chunks : List DocumentChunk)
    (embeddings : List (List Rat)) (metadata : DocumentMetadata) :
    Except String Unit × SupabaseDB :=
  let last_updated := metadata.get_utc_timestamp
  let document_id := db.next_id
  let doc_row : DocInsertRow :=
    { title := metadata.title, file_type := metadata.file_type,
      total_pages := metadata.total_pages, file_size := metadata.file_size,
      source_url := metadata.source_url, category := metadata.category,
      summary := metadata.summary, tags := metadata.tags,
      helpful_rating := metadata.helpful_rating, use_count := metadata.use_count,
      last_updated := last_updated, ai_suggestion := metadata.ai_suggestion }
  let db1 := { db with documents := db.documents ++ [(document_id, doc_row)],
                       next_id := db.next_id + 1 }
  let chunks_data := (chunks.zip embeddings).map (fun p =>
    { document_id := document_id, content := p.1.content, embedding := p.2,
      page_number := p.1.page_number,
      chunk_number := p.1.chunk_number : ChunkInsertRow })
  if db.chunk_insert_fails then
    (.error "chunk insert failed", db1)
  else
    (.ok (), { db1 with document_chunks := db1.document_chunks ++ chunks_data })

/-- A role-tagged chat message. -/
structure Message where
  role : String
  content : String
deriving DecidableEq

/-- One entry of the `sources` list `RAGService.get_answer` returns
(rag_service.py lines 50-55). -/
structure SourceEntry where
  content : String
  source : String
  page : Option Int
  similarity : Rat
deriving DecidableEq

/-- The dict `RAGService.get_answer` returns: the raw model text and the
ordered sources. -/
structure RAGAnswer where
  answer : String
  sources : List SourceEntry
deriving DecidableEq

/-- The external services `RAGService` talks to: the vector store's
services and the chat-completions endpoint (model, messages). -/
structure RAGEnv where
  store : VectorStoreEnv
  chat : String → List Message → Except String String

/-- The generation model of `RAGService.__init__` (rag_service.py line 12). -/
def generationModel : String := "gpt-4o"

/-- Python dict subscript `d[key]` on an optional key: `KeyError` when the
key is absent. -/
def getKey {α : Type} (key : String) (v : Option α) : Except String α :=
  match v with
  | some x => .ok x
  | none => .error ("KeyError: " ++ key)

/-- Python `f"{v}"` for an optional int: `None` renders as the string
`"None"`. -/
def renderOptInt (v : Option Int) : String :=
  match v with
  | none => "None"
  | some n => toString n

/-- Left-to-right evaluation of a Python list comprehension whose element
expression may raise: stops at the first error. -/
def mapExcept {α β : Type} (f : α → Except String β) : List α → Except String (List β)
  | [] => .ok []
  | a :: l =>
    match f a with
    | .error e => .error e
    | .ok b =>
      match mapExcept f l with
      | .error e => .error e
      | .ok bs => .ok (b :: bs)

/-- One context line of `get_answer` (rag_service.py line 29):
`f"Source: {chunk['source']}, Page: {chunk['page_number']}\n{chunk['content']}"`.
Raises `KeyError` when the chunk has no `source` key. -/
def contextEntry (c : ChunkDict) : Except String String :=
  match getKey "source" c.source with
  | .error e => .error e
  | .ok src =>
    .ok ("Source: " ++ src ++ ", Page: " ++ renderOptInt c.page_number
         ++ "\n" ++ c.content)

/-- The context block of `get_answer` (rag_service.py lines 28-31): the
context lines joined with blank lines. -/
def buildContext (chunks : List ChunkDict) : Except String String :=
  match mapExcept contextEntry chunks with
  | .error e => .error e
  | .ok entries => .ok (String.intercalate "\n\n" entries)

/-- One entry of the `sources` comprehension of `get_answer`
(rag_service.py lines 50-55).  Raises `KeyError` when `source` or
`similarity` is absent. -/
def sourceEntry (c : ChunkDict) : Except String SourceEntry :=
  match getKey "source" c.source with
  | .error e => .error e
  | .ok src =>
    match getKey "similarity" c.similarity with
    | .error e => .error e
    | .ok sim =>
      .ok { content := c.content, source := src, page := c.page_number,
            similarity := sim }

/-- The fixed system message of `get_answer` (rag_service.py line 36). -/
def systemMessage : Message :=
  { role := "system",
    content := "You are a helpful assistant. Use the provided context to answer the user's question. If you cannot find the answer in the context, say so." }

/-- The user message of `get_answer` (rag_service.py line 37):
`f"Context:\n{context}\n\nQuestion: {question}"`. -/
def userMessageFor (context question : String) : Message :=
  { role := "user",
    content := "Context:\n" ++ context ++ "\n\nQuestion: " ++ question }

/-- The default match threshold of `search_similar_chunks`
(vector_store.py line 58), used by `get_answer` which does not override
it. -/
def defaultMatchThreshold : Rat := 1 / 10

/-- `RAGService.get_answer` (rag_service.py lines 20-58): retrieve chunks
(threshold left at its 0.1 default, match_count = max_chunks), build the
context block, call the chat model once, then build the sources list.  Any
exception propagates unwrapped; there is no validation of `max_chunks` and
no special case for zero retrieved chunks.  Python default: max_chunks = 5. -/
def RAGService.get_answer (env : RAGEnv) (question : String) (max_chunks : Int) :
    Except String RAGAnswer × List ExtCall :=
  let sr := VectorStore.search_similar_chunks env.store question
    defaultMatchThreshold max_chunks
  let chunks := sr.1
  match buildContext chunks with
  | .error e => (.error e, sr.2)
  | .ok context =>
    let messages := [systemMessage, userMessageFor context question]
    match env.chat generationModel messages with
    | .error e => (.error e, sr.2 ++ [.chatCompletion generationModel])
    | .ok text =>
      match mapExcept sourceEntry chunks with
      | .error e => (.error e, sr.2 ++ [.chatCompletion generationModel])
      | .ok sources =>
        (.ok { answer := text, sources := sources },
         sr.2 ++ [.chatCompletion generationModel])

/-- A tokenizer whose encoding of every text has exactly `n` tokens, used
to instantiate claims about token counts. -/
def constTok (n : Nat) : Tokenizer :=
  { encode := fun _ => List.replicate n 0, decode := fun _ => "" }

theorem constTok_encode_length (n : Nat) (s : String) :
    ((DocumentProcessor.init (constTok n)).tokenizer.encode s).length = n := by
  show (List.replicate n (0 : Nat)).length = n
  simp

/-- A vector-store environment whose embedding endpoint is down. -/
def failingStoreEnv : VectorStoreEnv :=
  { embed := fun _ _ => .error "embedding provider down",
    match_chunks := fun _ _ _ => .error "unreachable",
    select_documents := fun _ => .error "unreachable" }

/-- A RAG environment over the failing store whose chat endpoint answers. -/
def echoRAGEnv : RAGEnv :=
  { store := failingStoreEnv, chat := fun _ _ => .ok "model answer" }

/-- A healthy vector-store environment whose RPC matches nothing. -/
def countingStoreEnv : VectorStoreEnv :=
  { embed := fun _ _ => .ok [1, 2],
    match_chunks := fun _ _ _ => .ok [],
    select_documents := fun _ => .ok [] }

/-- An empty database whose chunk-batch insert fails. -/
def emptyDB : SupabaseDB :=
  { documents := [], document_chunks := [], next_id := 1, chunk_insert_fails := true }

/-- An empty database whose inserts succeed. -/
def okDB : SupabaseDB :=
  { documents := [], document_chunks := [], next_id := 1, chunk_insert_fails := false }

/-- A sample metadata record with no page count. -/
def sampleMetadata : DocumentMetadata :=
  { title := "t", file_type := "pdf", total_pages := none, file_size := 10,
    source_url := none, category := "c", summary := none, tags := none,
    helpful_rating := none, use_count := some 0, ai_suggestion := none,
    last_updated := none }

/-- A sample chunk. -/
def sampleChunk : DocumentChunk :=
  { content := "hello", source := "t", page_number := some 1, chunk_number := 1 }

/-- A second sample chunk. -/
def sampleChunk2 : DocumentChunk :=
  { content := "world", source := "t", page_number := some 2, chunk_number := 2 }

/-- A sample file with two PDF pages and two docx paragraphs. -/
def sampleFile : ModelFile :=
  { pdf_pages := ["one two", "three"], docx_paragraphs := ["alpha", "beta"],
    text_content := "gamma" }

/-- The projection `get_answer` applies to a retrieved chunk whose `source`
and `similarity` keys are present. -/
def chunkToSource (c : ChunkDict) : SourceEntry :=
  { content := c.content, source := c.source.getD "", page := c.page_number,
    similarity := c.similarity.getD 0 }

/-- Whether an external call is a chat completion. -/
def isChatCall (c : ExtCall) : Bool :=
  match c with
  | .chatCompletion _ => true
  | _ => false

/-- How many chat-completion calls a trace contains. -/
def countChat (trace : List ExtCall) : Nat :=
  (trace.filter isChatCall).length

theorem countChat_append (xs ys : List ExtCall) :
    countChat (xs ++ ys) = countChat xs + countChat ys := by
  simp [countChat, List.filter_append]

theorem countChat_search (env : VectorStoreEnv) (q : String) (t : Rat) (c : Int) :
    countChat (VectorStore.search_similar_chunks env q t c).2 = 0 := by
  unfold VectorStore.search_similar_chunks
  split
  · rfl
  · split
    · rfl
    · split
      · rfl
      · dsimp only
        split
        · rfl
        · rfl

theorem mapExcept_contextEntry_ok (l : List ChunkDict)
    (h : ∀ c ∈ l, c.source.isSome) :
    ∃ entries, mapExcept contextEntry l = .ok entries := by
  induction l with
  | nil => exact ⟨[], rfl⟩
  | cons c l ih =>
    obtain ⟨s, hs⟩ := Option.isSome_iff_exists.mp (h c (List.mem_cons_self c l))
    obtain ⟨es, hes⟩ := ih (fun x hx => h x (List.mem_cons_of_mem c hx))
    refine ⟨("Source: " ++ s ++ ", Page: " ++ renderOptInt c.page_number
             ++ "\n" ++ c.content) :: es, ?_⟩
    simp only [mapExcept, contextEntry, getKey, hs, hes]

theorem mapExcept_sourceEntry_ok (l : List ChunkDict)
    (h : ∀ c ∈ l, c.source.isSome ∧ c.similarity.isSome) :
    mapExcept sourceEntry l = .ok (l.map chunkToSource) := by
  induction l with
  | nil => rfl
  | cons c l ih =>
    obtain ⟨s, hs⟩ := Option.isSome_iff_exists.mp (h c (List.mem_cons_self c l)).1
    obtain ⟨sim, hsim⟩ := Option.isSome_iff_exists.mp (h c (List.mem_cons_self c l)).2
    have hrest := ih (fun x hx => h x (List.mem_cons_of_mem c hx))
    simp only [mapExcept, sourceEntry, getKey, hs, hsim, hrest, List.map_cons]
    simp [chunkToSource, hs, hsim]

theorem createChunksStep_page (cs co : Nat) (src : String) (page : Option Int)
    (st : ChunkLoopState) (w : String)
    (h : ∀ c ∈ st.chunks, c.page_number = page) :
    ∀ c ∈ (createChunksStep cs co src page st w).chunks, c.page_number = page := by
  intro c hc
  unfold createChunksStep at hc
  dsimp only at hc
  split at hc
  · rcases List.mem_append.mp hc with hm | hm
    · exact h c hm
    · simp only [List.mem_singleton] at hm
      subst hm
      rfl
  · exact h c hc

theorem foldl_steps_page (cs co : Nat) (src : String) (page : Option Int)
    (ws : List String) (st : ChunkLoopState)
    (h : ∀ c ∈ st.chunks, c.page_number = page) :
    ∀ c ∈ (ws.foldl (createChunksStep cs co src page) st).chunks, c.page_number = page := by
  induction ws generalizing st with
  | nil => exact h
  | cons w ws ih => exact ih _ (createChunksStep_page cs co src page st w h)

/-- Every chunk `_create_chunks` emits carries the page number it was
called with. -/
theorem create_chunks_impl_page (dp : DocumentProcessor) (text src : String)
    (page : Option Int) :
    ∀ c ∈ dp.create_chunks_impl text src page, c.page_number = page := by
  intro c hc
  unfold DocumentProcessor.create_chunks_impl at hc
  dsimp only at hc
  split at hc
  · exact foldl_steps_page dp.chunk_size dp.chunk_overlap src page (pySplit text) _
      (fun c hc => absurd hc (List.not_mem_nil c)) c hc
  · rcases List.mem_append.mp hc with hm | hm
    · exact foldl_steps_page dp.chunk_size dp.chunk_overlap src page (pySplit text) _
        (fun c hc => absurd hc (List.not_mem_nil c)) c hm
    · simp only [List.mem_singleton] at hm
      subst hm
      rfl

theorem foldl_append_flatMap {α β : Type} (l : List α) (g : α → List β) (init : List β) :
    l.foldl (fun acc x => acc ++ g x) init = init ++ l.flatMap g := by
  induction l generalizing init with
  | nil => simp
  | cons x xs ih => simp [List.foldl_cons, ih, List.flatMap_cons]

/-- Boolean check that a chunk's page number is present and 1-based, i.e.
between 1 and the page count. -/
def pageNumberWithin (n : Nat) (c : DocumentChunk) : Bool :=
  match c.page_number with
  | some p => decide (1 ≤ p) && decide (p ≤ (n : Int))
  | none => false

/-- The chunks `_process_pdf` produces all carry a 1-based page number that
is at most the page count. -/
theorem process_pdf_pages (dp : DocumentProcessor) (file : ModelFile)
    (metadata : DocumentMetadata) :
    ((dp.process_pdf file metadata).1.all
      (pageNumberWithin file.pdf_pages.length)) = true := by
  rw [List.all_eq_true]
  intro c hc
  unfold DocumentProcessor.process_pdf at hc
  dsimp only at hc
  rw [foldl_append_flatMap, List.nil_append, List.mem_flatMap] at hc
  obtain ⟨i, hi, hmem⟩ := hc
  rw [List.mem_range] at hi
  have hp := create_chunks_impl_page dp (file.pdf_pages.getD i "") metadata.title
    (some ((i : Int) + 1)) c hmem
  simp only [pageNumberWithin, hp, Bool.and_eq_true, decide_eq_true_eq]
  omega

/-- C1: the claim says the query is embedded with the same model used at
ingestion.  In the code they differ: `search_similar_chunks` always
requests `text-embedding-ada-002` first (its comment says "Match the model
used in storage"), while `create_embeddings` requests
`text-embedding-3-small` for every chunk, and the two model names are not
equal; no dimension check exists. -/
theorem C1_embedding_model_mismatch :
    queryEmbeddingModel ≠ ingestionEmbeddingModel ∧
    (∀ env query t c,
      (VectorStore.search_similar_chunks env query t c).2.head? =
        some (ExtCall.embedQuery queryEmbeddingModel query)) ∧
    (∀ embed c,
      (DocumentProcessor.create_embeddings embed [c]).2 =
        [ExtCall.embedQuery ingestionEmbeddingModel c.content]) := by
  refine ⟨by decide, ?_, ?_⟩
  · intro env query t c
    unfold VectorStore.search_similar_chunks
    split
    · rfl
    · split
      · rfl
      · split
        · rfl
        · dsimp only
          split
          · rfl
          · rfl
  · intro embed c
    unfold DocumentProcessor.create_embeddings
    split
    · rfl
    · unfold DocumentProcessor.create_embeddings
      rfl

/-- C2: the claim says that when the chunk insert fails after the document
row was inserted, the operation reports failure and leaves zero persisted
rows for the document.  In the code the document row stays persisted: from
the empty database, a failing chunk insert leaves one documents row
behind. -/
theorem C2_counterexample :
    (VectorStore.store_document emptyDB [sampleChunk] [[1]] sampleMetadata).1 =
      .error "chunk insert failed" ∧
    (VectorStore.store_document emptyDB [sampleChunk] [[1]] sampleMetadata).2.documents.length = 1 ∧
    (VectorStore.store_document emptyDB [sampleChunk] [[1]] sampleMetadata).2.document_chunks = [] :=
  ⟨rfl, rfl, rfl⟩

/-- C2 amended: when the chunk insert fails, `store_document` reports
failure (the exception propagates, so success is never returned while the
chunk rows are missing), but the already-inserted document row remains
persisted and no chunk row is added. -/
theorem C2_amended (db : SupabaseDB) (chunks : List DocumentChunk)
    (embeddings : List (List Rat)) (metadata : DocumentMetadata)
    (h : db.chunk_insert_fails = true) :
    (VectorStore.store_document db chunks embeddings metadata).1 =
      .error "chunk insert failed" ∧
    (VectorStore.store_document db chunks embeddings metadata).2.documents.length =
      db.documents.length + 1 ∧
    (VectorStore.store_document db chunks embeddings metadata).2.document_chunks =
      db.document_chunks := by
  unfold VectorStore.store_document
  rw [h]
  simp

theorem C2_witness :
    (VectorStore.store_document emptyDB [sampleChunk, sampleChunk2] [[1], [2]] sampleMetadata).1 =
      .error "chunk insert failed" ∧
    (VectorStore.store_document emptyDB [sampleChunk, sampleChunk2] [[1], [2]] sampleMetadata).2.documents.length =
      emptyDB.documents.length + 1 ∧
    (VectorStore.store_document emptyDB [sampleChunk, sampleChunk2] [[1], [2]] sampleMetadata).2.document_chunks =
      emptyDB.document_chunks :=
  C2_amended emptyDB [sampleChunk, sampleChunk2] [[1], [2]] sampleMetadata rfl

/-- C5: the claim says a failing underlying query raises a clear error
instead of returning the empty sequence.  In the code the catch-all
`except` swallows the failure: with the embedding endpoint down,
`search_similar_chunks` still returns the empty list. -/
theorem C5_counterexample :
    failingStoreEnv.embed queryEmbeddingModel "q" = .error "embedding provider down" ∧
    (VectorStore.search_similar_chunks failingStoreEnv "q" defaultMatchThreshold 3).1 = [] :=
  ⟨rfl, rfl⟩

/-- C5 amended: `search_similar_chunks` returns the empty list both when no
stored chunk clears the threshold (the RPC returns no rows) and when the
embedding call or the RPC fails — every exception is caught and mapped to
the empty list rather than raised. -/
theorem C5_amended (env : VectorStoreEnv) (q : String) (t : Rat) (c : Int) (e : String)
    (h : env.embed queryEmbeddingModel q = .error e ∨
         (∀ v, env.match_chunks v t c = .error e) ∨
         (∀ v, env.match_chunks v t c = .ok [])) :
    (VectorStore.search_similar_chunks env q t c).1 = [] := by
  unfold VectorStore.search_similar_chunks
  rcases h with h | h | h
  · rw [h]
  · rcases he : env.embed queryEmbeddingModel q with e2 | qe
    · rfl
    · dsimp only
      rw [h qe]
  · rcases he : env.embed queryEmbeddingModel q with e2 | qe
    · rfl
    · dsimp only
      rw [h qe]
      rfl

theorem C5_witness :
    (VectorStore.search_similar_chunks failingStoreEnv "w" defaultMatchThreshold 3).1 = [] :=
  C5_amended failingStoreEnv "w" defaultMatchThreshold 3 "embedding provider down" (Or.inl rfl)

/-- C6: `create_chunks` with the configured chunk_size = 1000 and
chunk_overlap = 200 emits exactly `ceil(N / 800)` chunks for an `N`-token
text: one chunk per window start position, so the final partial window is
always emitted, and an empty tokenization gives zero chunks. -/
theorem C6_chunk_count (tok : Tokenizer) (text source : String) (page : Option Int) :
    ((DocumentProcessor.init tok).create_chunks text source page).length =
      ((tok.encode text).length + 800 - 1) / 800 := by
  rw [create_chunks_length]
  norm_num [DocumentProcessor.init]

/-- C7: the claim says every non-empty text of fewer than chunk_size = 1000
tokens yields exactly one chunk.  A 900-token text is a counterexample: the
stride is `chunk_size - chunk_overlap = 800`, so window starts 0 and 800
both emit, giving two chunks. -/
theorem C7_counterexample :
    (((DocumentProcessor.init (constTok 900)).tokenizer.encode "x").length < 1000) ∧
    (((DocumentProcessor.init (constTok 900)).tokenizer.encode "x").length ≠ 0) ∧
    ((DocumentProcessor.init (constTok 900)).create_chunks "x" "s" none).length ≠ 1 := by
  refine ⟨?_, ?_, ?_⟩
  · rw [constTok_encode_length]
    norm_num
  · rw [constTok_encode_length]
    norm_num
  · rw [create_chunks_length, constTok_encode_length]
    norm_num [DocumentProcessor.init]

/-- C7 amended: a non-empty text of at most `chunk_size - chunk_overlap =
800` tokens yields exactly one chunk (801 to 999 tokens already yield
two). -/
theorem C7_amended (tok : Tokenizer) (text source : String) (page : Option Int)
    (h1 : (tok.encode text).length ≠ 0)
    (h2 : (tok.encode text).length ≤ 800) :
    ((DocumentProcessor.init tok).create_chunks text source page).length = 1 := by
  rw [create_chunks_length]
  show ((tok.encode text).length + (1000 - 200) - 1) / (1000 - 200) = 1
  omega

theorem C7_witness :
    ((DocumentProcessor.init (constTok 5)).create_chunks "x" "s" none).length = 1 :=
  C7_amended (constTok 5) "x" "s" none (by decide) (by decide)

/-- C10: `store_document` with `len(chunks) != len(embeddings)` performs no
precondition check: it returns success, inserts the document row, and
persists only the first `min(len(chunks), len(embeddings))` chunk rows,
because `zip` truncates to the shorter list. -/
theorem C10_zip_truncation (db : SupabaseDB) (chunks : List DocumentChunk)
    (embeddings : List (List Rat)) (metadata : DocumentMetadata)
    (hok : db.chunk_insert_fails = false)
    (hne : chunks.length ≠ embeddings.length) :
    (VectorStore.store_document db chunks embeddings metadata).1 = .ok () ∧
    (VectorStore.store_document db chunks embeddings metadata).2.documents.length =
      db.documents.length + 1 ∧
    (VectorStore.store_document db chunks embeddings metadata).2.document_chunks.length =
      db.document_chunks.length + min chunks.length embeddings.length := by
  unfold VectorStore.store_document
  rw [hok]
  simp

theorem C10_witness :
    [sampleChunk, sampleChunk2].length ≠ [[(1 : Rat)]].length ∧
    (VectorStore.store_document okDB [sampleChunk, sampleChunk2] [[1]] sampleMetadata).1 = .ok () ∧
    (VectorStore.store_document okDB [sampleChunk, sampleChunk2] [[1]] sampleMetadata).2.documents.length =
      okDB.documents.length + 1 ∧
    (VectorStore.store_document okDB [sampleChunk, sampleChunk2] [[1]] sampleMetadata).2.document_chunks.length =
      okDB.document_chunks.length + min [sampleChunk, sampleChunk2].length [[(1 : Rat)]].length :=
  ⟨by decide, C10_zip_truncation okDB [sampleChunk, sampleChunk2] [[1]] sampleMetadata rfl (by decide)⟩

/-- When retrieval yields no chunks, `get_answer` is exactly the chat call
on the empty context block: an ok answer passes through with no sources,
and a chat error propagates unwrapped. -/
theorem get_answer_of_search_nil (env : RAGEnv) (question : String) (max_chunks : Int)
    (hnil : (VectorStore.search_similar_chunks env.store question
      defaultMatchThreshold max_chunks).1 = []) :
    (RAGService.get_answer env question max_chunks).1 =
      (env.chat generationModel [systemMessage, userMessageFor "" question]).map
        (fun text => { answer := text, sources := [] }) := by
  unfold RAGService.get_answer
  dsimp only
  rw [hnil]
  rw [show buildContext [] = .ok "" from rfl]
  dsimp only
  rcases hc : env.chat generationModel [systemMessage, userMessageFor "" question] with e2 | t
  · rfl
  · rfl

/-- C3: the claim says any failure surfaces as a single `AnsweringError`
and a retrieval failure must not degrade into an answer from an empty
context.  In the code there is no `AnsweringError` at all, and with the
embedding endpoint down `get_answer` still returns a successful answer
generated from the empty context. -/
theorem C3_counterexample :
    failingStoreEnv.embed queryEmbeddingModel "question" = .error "embedding provider down" ∧
    (RAGService.get_answer echoRAGEnv "question" 5).1 =
      .ok { answer := "model answer", sources := [] } :=
  ⟨rfl, rfl⟩

/-- C3 amended: a retrieval failure is swallowed inside
`search_similar_chunks` (which returns the empty list), and `get_answer`
proceeds to generate from the empty context block; a generation-model
failure propagates to the caller as the raw exception, with no wrapping
error type and no sources. -/
theorem C3_amended (env : RAGEnv) (question : String) (max_chunks : Int) (e : String)
    (hembed : env.store.embed queryEmbeddingModel question = .error e) :
    (RAGService.get_answer env question max_chunks).1 =
      (env.chat generationModel [systemMessage, userMessageFor "" question]).map
        (fun text => { answer := text, sources := [] }) := by
  apply get_answer_of_search_nil
  unfold VectorStore.search_similar_chunks
  rw [hembed]

theorem C3_witness :
    (RAGService.get_answer echoRAGEnv "q" 5).1 =
      (echoRAGEnv.chat generationModel [systemMessage, userMessageFor "" "q"]).map
        (fun text => { answer := text, sources := [] }) :=
  C3_amended echoRAGEnv "q" 5 "embedding provider down" rfl

/-- With a successful embedding call, the trace of `search_similar_chunks`
always starts with the embedding request followed by the RPC call carrying
the unchanged threshold and count. -/
theorem search_trace_embed_ok (env : VectorStoreEnv) (q : String) (t : Rat) (c : Int)
    (qe : List Rat) (hok : env.embed queryEmbeddingModel q = .ok qe) :
    (VectorStore.search_similar_chunks env q t c).2.take 2 =
      [ExtCall.embedQuery queryEmbeddingModel q, ExtCall.rpcMatchChunks t c] ∧
    2 ≤ (VectorStore.search_similar_chunks env q t c).2.length := by
  unfold VectorStore.search_similar_chunks
  rw [hok]
  dsimp only
  split
  · exact ⟨rfl, by simp⟩
  · split
    · exact ⟨rfl, by simp⟩
    · split
      · exact ⟨rfl, by simp⟩
      · exact ⟨rfl, by simp⟩

/-- C4: the claim says non-positive counts raise `InvalidQueryError`
before any network call.  In the code there is no validation at all: with
`match_count = 0` the query embedding is requested, the RPC is called with
count 0, and both functions return normally. -/
theorem C4_counterexample :
    (VectorStore.search_similar_chunks countingStoreEnv "q" defaultMatchThreshold 0).2 =
      [ExtCall.embedQuery queryEmbeddingModel "q",
       ExtCall.rpcMatchChunks defaultMatchThreshold 0] ∧
    (VectorStore.search_similar_chunks countingStoreEnv "q" defaultMatchThreshold 0).1 = [] ∧
    (RAGService.get_answer { store := countingStoreEnv, chat := fun _ _ => .ok "answer text" }
      "q" 0).1 = .ok { answer := "answer text", sources := [] } :=
  ⟨rfl, rfl, rfl⟩

/-- C4 amended: neither function validates its count argument.  Whenever
the embedding endpoint answers, `search_similar_chunks` requests the query
embedding first and forwards `match_count` unchanged to the RPC for every
count, including non-positive ones, and `get_answer` does the same with
`max_chunks`; no `InvalidQueryError` exists. -/
theorem C4_amended (env : RAGEnv) (q : String) (t : Rat) (c : Int) (qe : List Rat)
    (hok : env.store.embed queryEmbeddingModel q = .ok qe) :
    ((VectorStore.search_similar_chunks env.store q t c).2.take 2 =
      [ExtCall.embedQuery queryEmbeddingModel q, ExtCall.rpcMatchChunks t c]) ∧
    ((RAGService.get_answer env q c).2.take 2 =
      [ExtCall.embedQuery queryEmbeddingModel q,
       ExtCall.rpcMatchChunks defaultMatchThreshold c]) := by
  refine ⟨(search_trace_embed_ok env.store q t c qe hok).1, ?_⟩
  have h2 := search_trace_embed_ok env.store q defaultMatchThreshold c qe hok
  unfold RAGService.get_answer
  dsimp only
  split
  · exact h2.1
  · split
    · rw [List.take_append_of_le_length h2.2]
      exact h2.1
    · split
      · rw [List.take_append_of_le_length h2.2]
        exact h2.1
      · rw [List.take_append_of_le_length h2.2]
        exact h2.1

theorem C4_witness :
    ((VectorStore.search_similar_chunks countingStoreEnv "q" defaultMatchThreshold 0).2.take 2 =
      [ExtCall.embedQuery queryEmbeddingModel "q",
       ExtCall.rpcMatchChunks defaultMatchThreshold 0]) ∧
    ((RAGService.get_answer { store := countingStoreEnv, chat := fun _ _ => .ok "answer text" }
        "q" 0).2.take 2 =
      [ExtCall.embedQuery queryEmbeddingModel "q",
       ExtCall.rpcMatchChunks defaultMatchThreshold 0]) :=
  C4_amended { store := countingStoreEnv, chat := fun _ _ => .ok "answer text" }
    "q" defaultMatchThreshold 0 [1, 2] rfl

/-- C8: the claim says `total_pages` is null for docx.  In the code
`_process_docx` sets it to the paragraph count: on a two-paragraph file
whose metadata had no page count, `total_pages` comes back as 2. -/
theorem C8_counterexample :
    sampleMetadata.total_pages = none ∧
    ((DocumentProcessor.init (constTok 0)).process_docx sampleFile sampleMetadata).2.total_pages =
      some 2 :=
  ⟨rfl, rfl⟩

/-- C8 amended: for PDFs `total_pages` equals the page count and every
chunk's page number is 1-based (between 1 and the page count); for docx
`total_pages` is set to the paragraph count (an approximation, not null);
for txt and md the metadata is left unchanged, so `total_pages` stays null
only when it already was. -/
theorem C8_amended (dp : DocumentProcessor) (file : ModelFile) (metadata : DocumentMetadata) :
    (dp.process_pdf file metadata).2.total_pages = some (file.pdf_pages.length : Int) ∧
    ((dp.process_pdf file metadata).1.all (pageNumberWithin file.pdf_pages.length)) = true ∧
    (dp.process_docx file metadata).2.total_pages = some (file.docx_paragraphs.length : Int) ∧
    (dp.process_text file metadata).2 = metadata ∧
    dp.process_document ".docx" file metadata = .ok (dp.process_docx file metadata) ∧
    dp.process_document ".txt" file metadata = .ok (dp.process_text file metadata) :=
  ⟨rfl, process_pdf_pages dp file metadata, rfl, rfl, rfl, rfl⟩

/-- C9: `get_answer` invokes the generation model exactly once even when
retrieval returns zero chunks, returns the raw model text as `answer`, and
returns as `sources` exactly the retrieved chunks (content, source, page,
similarity) in retrieval order. -/
theorem C9_generation_once (env : RAGEnv) (question : String) (max_chunks : Int) (text : String)
    (h1 : ∀ c ∈ (VectorStore.search_similar_chunks env.store question
        defaultMatchThreshold max_chunks).1, c.source.isSome ∧ c.similarity.isSome)
    (h2 : ∀ msgs, env.chat generationModel msgs = .ok text) :
    (RAGService.get_answer env question max_chunks).1 =
      .ok { answer := text,
            sources := (VectorStore.search_similar_chunks env.store question
              defaultMatchThreshold max_chunks).1.map chunkToSource } ∧
    countChat (RAGService.get_answer env question max_chunks).2 = 1 := by
  obtain ⟨entries, hent⟩ := mapExcept_contextEntry_ok _ (fun c hc => (h1 c hc).1)
  have hsrc := mapExcept_sourceEntry_ok _ h1
  unfold RAGService.get_answer
  dsimp only
  unfold buildContext
  rw [hent]
  dsimp only
  rw [h2]
  dsimp only
  rw [hsrc]
  refine ⟨rfl, ?_⟩
  rw [countChat_append, countChat_search]
  rfl

theorem C9_witness :
    (RAGService.get_answer { store := countingStoreEnv, chat := fun _ _ => .ok "ans" } "q" 5).1 =
      .ok { answer := "ans",
            sources := (VectorStore.search_similar_chunks countingStoreEnv "q"
              defaultMatchThreshold 5).1.map chunkToSource } ∧
    countChat (RAGService.get_answer { store := countingStoreEnv, chat := fun _ _ => .ok "ans" }
      "q" 5).2 = 1 :=
  C9_generation_once { store := countingStoreEnv, chat := fun _ _ => .ok "ans" } "q" 5 "ans"
    (fun c hc => nomatch hc) (fun _ => rfl)
